import Mathlib

/-!
Shallow embedding of the resume layout normalization engine
(`preprocessResume` and its helpers from `lib/resumePreprocess`),
together with theorems checking the specification's claims about it.

Strings are modelled as Lean `String`; JavaScript's `trim`, `slice(0, n)`
and `Array.prototype.join` are embedded as explicit functions over the
character list.  JavaScript numbers appearing in the font-size derivation
are modelled as real numbers, with `Math.round x = ⌊x + 1/2⌋`.
TypeScript-optional fields are modelled as `Option`; the source's
`x || defaultValue` coercions become `Option.getD`.
-/

namespace Resumator

/-! ## Data model (from `types/resume.ts`) -/

structure Contact where
  phone : Option String
  email : Option String
  address : Option String
  linkedin : Option String
  deriving DecidableEq, Repr

structure Exp where
  role : String
  company : String
  duration : String
  description : List String
  deriving DecidableEq, Repr

structure Edu where
  degree : String
  school : String
  year : String
  deriving DecidableEq, Repr

structure Cert where
  name : String
  year : Option String
  deriving DecidableEq, Repr

structure Vol where
  role : String
  org : String
  duration : Option String
  description : List String
  deriving DecidableEq, Repr

structure ResumeData where
  name : String
  title : Option String
  photoUrl : Option String
  contact : Contact
  summary : String
  experience : List Exp
  education : List Edu
  certifications : Option (List Cert)
  achivements : Option (List String)
  volunteer : Option (List Vol)
  skills : Option (List String)
  softSkills : Option (List String)
  languages : Option (List String)
  interests : Option (List String)
  deriving DecidableEq, Repr

structure SectionFontSizes where
  name : Int
  sectionTitle : Int
  body : Int
  sidebarTitle : Int
  sidebarBody : Int
  duration : Int

structure LayoutHints where
  compactMode : Bool
  nameFontSize : Int
  maxExperienceItems : Nat
  maxBulletsPerExp : Nat
  maxEducationItems : Nat
  truncateCharPerLine : Nat
  sectionFontSizes : SectionFontSizes
  sidebarWidthPx : Nat

structure ProcessedResume extends ResumeData where
  _layout : LayoutHints

/-! ## JavaScript string primitives -/

def isJsSpace (c : Char) : Bool :=
  c == ' ' || c == '\t' || c == '\n' || c == '\r'

/-- JavaScript `String.prototype.trim` (both ends). -/
def jsTrim (s : String) : String :=
  String.mk (((s.data.dropWhile isJsSpace).reverse.dropWhile isJsSpace).reverse)

/-- JavaScript `String.prototype.slice(0, n)` for `n ≥ 0`. -/
def jsTake (s : String) (n : Nat) : String :=
  String.mk (s.data.take n)

/-- JavaScript `Array.prototype.join(sep)`. -/
def joinWith (sep : String) : List String → String
  | [] => ""
  | [a] => a
  | a :: b :: t => a ++ sep ++ joinWith sep (b :: t)

/-- `join(" ")`, used pervasively by the density estimator. -/
def joinSp : List String → String := joinWith " "

/-- First-occurrence deduplication, the semantics of
`Array.from(new Set(xs))` in JavaScript. -/
def dedupFirstAux (seen : List String) : List String → List String
  | [] => []
  | a :: t =>
    if a ∈ seen then dedupFirstAux seen t
    else a :: dedupFirstAux (a :: seen) t

def dedupFirst (l : List String) : List String := dedupFirstAux [] l

/-! ## Helpers from the source (`clamp`, `uniqStrings`, join helpers) -/

def clamp {α : Type} [LinearOrder α] (v a b : α) : α := max a (min b v)

def uniqStrings (arr : Option (List String)) : List String :=
  dedupFirst (((arr.getD []).map jsTrim).filter (fun s => s ≠ ""))

def joinExpText (exp : List Exp) : String :=
  joinSp (exp.map (fun e =>
    e.role ++ " " ++ e.company ++ " " ++ e.duration ++ " " ++ joinSp e.description))

def joinEduText (edu : List Edu) : String :=
  joinSp (edu.map (fun e => e.degree ++ " " ++ e.school ++ " " ++ e.year))

def joinSimple (arr : Option (List String)) : String := joinSp (arr.getD [])

/-! ## Density estimator -/

def TARGET_CHARS : Nat := 3600
def MEDIUM_CHARS : Nat := 2200
def COMPACT_CHAR_THRESHOLD : Nat := 4200

def certText (certs : List Cert) : String :=
  joinSp (certs.map (fun c => c.name ++ c.year.getD ""))

def volunteerText (vols : List Vol) : String :=
  joinSp (vols.map (fun v => v.role ++ " " ++ v.org ++ " " ++ joinSp v.description))

def totalChars (r : ResumeData) : Nat :=
  r.name.length + (r.title.getD "").length + r.summary.length
    + (joinExpText r.experience).length
    + (joinEduText r.education).length
    + (joinSimple r.skills).length
    + (joinSimple r.softSkills).length
    + (joinSimple r.achivements).length
    + (joinSimple r.languages).length
    + (certText (r.certifications.getD [])).length
    + (volunteerText (r.volunteer.getD [])).length

/-! ## Layout resolver: mode, caps and content pipeline -/

def compactMode (r : ResumeData) : Bool := decide (MEDIUM_CHARS < totalChars r)

def maxExperienceItems (r : ResumeData) : Nat := if compactMode r then 3 else 6
def maxBulletsPerExp (r : ResumeData) : Nat := if compactMode r then 2 else 4
def maxEducationItems (r : ResumeData) : Nat := if compactMode r then 2 else 6
def truncateCharPerLine (r : ResumeData) : Nat := if compactMode r then 120 else 220
def achCap (r : ResumeData) : Nat := if compactMode r then 6 else 12

/-- Condensed overflow string for an excess experience entry:
`[title, ...bullets].filter(Boolean).join(" • ")` with
`title = (role + " — " + company).trim()`. -/
def condenseExp (maxB : Nat) (e : Exp) : String :=
  let title := jsTrim (e.role ++ " — " ++ e.company)
  let bullets := (e.description.take maxB).map jsTrim
  joinWith " • " ((title :: bullets).filter (fun s => s ≠ ""))

/-- Condensed overflow string for an excess education entry. -/
def condenseEdu (e : Edu) : String :=
  jsTrim (e.degree ++ " — " ++ e.school ++ " " ++ jsTrim e.year)

/-- The pending overflow list (experience extras first, then education
extras, empty condensed strings skipped). -/
def extraAchievements (r : ResumeData) : List String :=
  (if maxExperienceItems r < r.experience.length then
    ((r.experience.drop (maxExperienceItems r)).map
      (condenseExp (maxBulletsPerExp r))).filter (fun s => s ≠ "")
  else []) ++
  (if maxEducationItems r < r.education.length then
    ((r.education.drop (maxEducationItems r)).map condenseEdu).filter
      (fun s => s ≠ "")
  else [])

/-- Per-bullet truncation:
`d.length > limit ? d.slice(0, limit - 1).trim() + "…" : d`. -/
def truncLine (limit : Nat) (d : String) : String :=
  if limit < d.length then jsTrim (jsTake d (limit - 1)) ++ "…" else d

/-- Per-entry bullet processing: cap to `maxB` bullets, trim each, then
truncate each to `limit`. -/
def procExpEntry (maxB limit : Nat) (e : Exp) : Exp :=
  { e with description := ((e.description.take maxB).map jsTrim).map (truncLine limit) }

def processedExperience (r : ResumeData) : List Exp :=
  (if maxExperienceItems r < r.experience.length then
    r.experience.take (maxExperienceItems r)
  else r.experience).map (procExpEntry (maxBulletsPerExp r) (truncateCharPerLine r))

def processedEducation (r : ResumeData) : List Edu :=
  if maxEducationItems r < r.education.length then
    r.education.take (maxEducationItems r)
  else r.education

def processedCertifications (r : ResumeData) : List Cert :=
  ((r.certifications.getD []).map
    (fun c => { name := jsTrim c.name, year := some (jsTrim (c.year.getD "")) })).take 20

/-- Final achievements: existing (trimmed) first, then overflow, first
occurrence kept on duplicates, empties dropped, capped to `achCap`. -/
def processedAchievements (r : ResumeData) : List String :=
  ((dedupFirst (((r.achivements.getD []).map jsTrim) ++ extraAchievements r)).filter
    (fun s => s ≠ "")).take (achCap r)

/-! ## Font-size derivation (JavaScript numbers modelled as reals) -/

/-- JavaScript `Math.round`. -/
noncomputable def jsRound (x : ℝ) : Int := ⌊x + 1 / 2⌋

noncomputable def rawScale (t : Nat) : ℝ := (TARGET_CHARS : ℝ) / max 1 (t : ℝ)

noncomputable def globalScale (t : Nat) : ℝ := clamp (Real.sqrt (rawScale t)) 0.7 1

noncomputable def sidebarPenalty (t : Nat) : ℝ :=
  if COMPACT_CHAR_THRESHOLD < t then 0.88 else 1

noncomputable def nameFontSize (r : ResumeData) : Int :=
  clamp (jsRound (40 * globalScale (totalChars r) -
    (if 24 < r.name.length then ((r.name.length : ℝ) - 24) * 0.25 else 0))) 16 48

noncomputable def sectionFontSizes (r : ResumeData) : SectionFontSizes :=
  { name := nameFontSize r
    sectionTitle := clamp (jsRound (14 * globalScale (totalChars r))) 10 18
    body := clamp (jsRound (12 * globalScale (totalChars r))) 9 14
    sidebarTitle :=
      clamp (jsRound (12 * globalScale (totalChars r) * sidebarPenalty (totalChars r))) 9 14
    sidebarBody :=
      clamp (jsRound (11 * globalScale (totalChars r) * sidebarPenalty (totalChars r))) 8 12
    duration := clamp (jsRound (10 * globalScale (totalChars r))) 8 12 }

noncomputable def layoutHints (r : ResumeData) : LayoutHints :=
  { compactMode := compactMode r
    nameFontSize := nameFontSize r
    maxExperienceItems := maxExperienceItems r
    maxBulletsPerExp := maxBulletsPerExp r
    maxEducationItems := maxEducationItems r
    truncateCharPerLine := truncateCharPerLine r
    sectionFontSizes := sectionFontSizes r
    sidebarWidthPx := 180 }

/-! ## The resolver -/

noncomputable def preprocessResume (r : ResumeData) : ProcessedResume :=
  { name := r.name
    title := r.title
    photoUrl := r.photoUrl
    contact := r.contact
    summary := r.summary
    experience := processedExperience r
    education := processedEducation r
    certifications := some (processedCertifications r)
    achivements := some (processedAchievements r)
    volunteer := r.volunteer
    skills := some ((uniqStrings r.skills).take (if compactMode r then 12 else 30))
    softSkills := some ((uniqStrings r.softSkills).take (if compactMode r then 6 else 12))
    languages := some ((uniqStrings r.languages).take (if compactMode r then 3 else 8))
    interests := r.interests
    _layout := layoutHints r }

/-! ## Spec-side measure for the density formula (claim C8)

`joinLen` is the length contributed by joining strings of the given
lengths with a single separating space. -/

def joinLen (ls : List Nat) : Nat := ls.sum + (ls.length - 1)

/-! ## Dynamic (untyped) semantics of `joinExpText` (claim C5)

The input of `preprocessResume` is LLM-produced JSON, so an experience
entry's `description` may dynamically hold a non-array value.  `JsVal`
models the possible JavaScript values of that field; `jsOrEmptyArr` is
the source's `e.description || []` coercion (which only replaces falsy
values), and `jsJoinSp` is `.join(" ")`, a TypeError on non-arrays. -/

inductive JsVal where
  | undef
  | nullv
  | str (s : String)
  | num (n : Int)
  | boolv (b : Bool)
  | arr (l : List String)
  deriving DecidableEq, Repr

def truthy : JsVal → Bool
  | .undef => false
  | .nullv => false
  | .str s => s ≠ ""
  | .num n => n ≠ 0
  | .boolv b => b
  | .arr _ => true

def jsOrEmptyArr (v : JsVal) : JsVal := if truthy v then v else .arr []

def jsJoinSp : JsVal → Except String String
  | .arr l => .ok (joinSp l)
  | _ => .error "TypeError: join is not a function"

structure ExpDyn where
  role : String
  company : String
  duration : String
  description : JsVal
  deriving DecidableEq, Repr

/-- Dynamic-semantics embedding of `joinExpText`:
`(exp || []).map(e => role company duration (e.description || []).join(" ")).join(" ")`.
The density estimator calls this before any `Array.isArray` check runs. -/
def joinExpTextDyn (exp : List ExpDyn) : Except String String :=
  (exp.mapM (fun e =>
    (jsJoinSp (jsOrEmptyArr e.description)).map (fun d =>
      e.role ++ " " ++ e.company ++ " " ++ e.duration ++ " " ++ d))).map joinSp

/-- Dynamic-semantics embedding of the later bullet coercion
`Array.isArray(e.description) ? e.description : []`. -/
def descCoerce : JsVal → List String
  | .arr l => l
  | _ => []

/-! ## Concrete inputs used by witnesses and counterexamples -/

def emptyResume : ResumeData :=
  { name := "", title := none, photoUrl := none,
    contact := { phone := none, email := none, address := none, linkedin := none },
    summary := "", experience := [], education := [], certifications := none,
    achivements := none, volunteer := none, skills := none, softSkills := none,
    languages := none, interests := none }

def aRep (n : Nat) : String := String.mk (List.replicate n 'a')
def zRep (n : Nat) : String := String.mk (List.replicate n 'z')

/-- An input whose density is exactly 2200 characters. -/
def c1Input : ResumeData :=
  { emptyResume with name := zRep 1000, summary := zRep 1000, title := some (zRep 200) }

def c3Input : ResumeData :=
  { emptyResume with
    experience := [{ role := "r", company := "c", duration := "d",
                     description := ["b1", "b2", "b3", "b4", "b5"] }] }

def c3Entry : Exp :=
  { role := "r", company := "c", duration := "d", description := ["b1", "b2", "b3", "b4"] }

/-- A tiny experience entry used to overflow the item caps. -/
def smallExp (i : String) : Exp :=
  { role := i, company := "c", duration := "", description := ["aa", "bb"] }

def c4Input : ResumeData :=
  { emptyResume with
    experience := [smallExp "1", smallExp "2", smallExp "3", smallExp "4",
                   smallExp "5", smallExp "6", smallExp "7"] }

def c6Input : ResumeData :=
  { emptyResume with
    experience := [{ role := "r", company := "c", duration := "", description := [" a"] }] }

/-- Density 2196 on the first pass (normal mode); condensing the two
overflow entries into achievements raises the second-pass density to
2204 (compact mode). -/
def c7Input : ResumeData :=
  { emptyResume with
    name := zRep 893,
    summary := zRep 1000,
    experience :=
      { role := "R", company := "C", duration := "", description := [aRep 221] } ::
      [smallExp "1", smallExp "2", smallExp "3", smallExp "4", smallExp "5",
       smallExp "6", smallExp "7"] }

set_option maxRecDepth 200000

/-! ## Helper lemmas -/

theorem clamp_bounds {α : Type} [LinearOrder α] (v a b : α) (h : a ≤ b) :
    a ≤ clamp v a b ∧ clamp v a b ≤ b :=
  ⟨le_max_left a (min b v), max_le h (min_le_left b v)⟩

theorem dedupFirstAux_spec (l : List String) :
    ∀ seen, (dedupFirstAux seen l).Nodup ∧ ∀ a ∈ dedupFirstAux seen l, a ∉ seen := by
  induction l with
  | nil => intro seen; simp [dedupFirstAux]
  | cons a t ih =>
    intro seen
    by_cases h : a ∈ seen
    · simpa [dedupFirstAux, h] using ih seen
    · have iht := ih (a :: seen)
      rw [dedupFirstAux, if_neg h]
      refine ⟨List.nodup_cons.2 ⟨fun hmem => ?_, iht.1⟩, ?_⟩
      · exact iht.2 a hmem (List.mem_cons_self a seen)
      · intro b hb
        rcases List.mem_cons.1 hb with hb | hb
        · exact hb ▸ h
        · exact fun hbs => iht.2 b hb (List.mem_cons_of_mem a hbs)

theorem dedupFirst_nodup (l : List String) : (dedupFirst l).Nodup :=
  (dedupFirstAux_spec l []).1

theorem dedupFirstAux_length_le (l : List String) :
    ∀ seen, (dedupFirstAux seen l).length ≤ l.length := by
  induction l with
  | nil => intro seen; simp [dedupFirstAux]
  | cons a t ih =>
    intro seen
    by_cases h : a ∈ seen
    · rw [dedupFirstAux, if_pos h]
      exact le_trans (ih seen) (Nat.le_succ _)
    · rw [dedupFirstAux, if_neg h, List.length_cons]
      exact Nat.succ_le_succ (ih _)

theorem dedupFirst_length_le (l : List String) : (dedupFirst l).length ≤ l.length :=
  dedupFirstAux_length_le l []

theorem joinSp_length (l : List String) :
    (joinSp l).length = joinLen (l.map String.length) := by
  show (joinWith " " l).length = _
  induction l with
  | nil => rfl
  | cons a t ih =>
    cases t with
    | nil => simp [joinWith, joinLen]
    | cons b t2 =>
      have hstep : joinWith " " (a :: b :: t2) = a ++ " " ++ joinWith " " (b :: t2) := rfl
      have hsp : (" " : String).length = 1 := rfl
      rw [hstep, String.length_append, String.length_append, hsp, ih]
      simp only [joinLen, List.map_cons, List.sum_cons, List.length_cons]
      omega

theorem processedExperience_length_le (r : ResumeData) :
    (processedExperience r).length ≤ maxExperienceItems r := by
  unfold processedExperience
  rw [List.length_map]
  split
  · rw [List.length_take]; exact min_le_left _ _
  · next h => exact Nat.le_of_not_lt h

theorem processedEducation_length_le (r : ResumeData) :
    (processedEducation r).length ≤ maxEducationItems r := by
  unfold processedEducation
  split
  · rw [List.length_take]; exact min_le_left _ _
  · next h => exact Nat.le_of_not_lt h

theorem processedExperience_desc_le (r : ResumeData) (e : Exp)
    (he : e ∈ processedExperience r) :
    e.description.length ≤ maxBulletsPerExp r := by
  unfold processedExperience at he
  rcases List.mem_map.1 he with ⟨e0, _, rfl⟩
  show (((e0.description.take (maxBulletsPerExp r)).map jsTrim).map
    (truncLine (truncateCharPerLine r))).length ≤ maxBulletsPerExp r
  rw [List.length_map, List.length_map, List.length_take]
  exact min_le_left _ _

theorem processedAchievements_length_le (r : ResumeData) :
    (processedAchievements r).length ≤ achCap r := by
  unfold processedAchievements
  rw [List.length_take]
  exact min_le_left _ _

theorem processedAchievements_nodup (r : ResumeData) :
    (processedAchievements r).Nodup := by
  unfold processedAchievements
  exact ((dedupFirst_nodup _).filter _).sublist (List.take_sublist _ _)

theorem extraAchievements_eq_nil (r : ResumeData)
    (h1 : r.experience.length ≤ maxExperienceItems r)
    (h2 : r.education.length ≤ maxEducationItems r) :
    extraAchievements r = [] := by
  unfold extraAchievements
  rw [if_neg (Nat.not_lt.2 h1), if_neg (Nat.not_lt.2 h2)]
  rfl

theorem processedAchievements_le_existing (r : ResumeData)
    (h : extraAchievements r = []) :
    (processedAchievements r).length ≤ (r.achivements.getD []).length := by
  unfold processedAchievements
  rw [h, List.append_nil]
  calc (((dedupFirst ((r.achivements.getD []).map jsTrim)).filter
          (fun s => s ≠ "")).take (achCap r)).length
      ≤ ((dedupFirst ((r.achivements.getD []).map jsTrim)).filter
          (fun s => s ≠ "")).length := by
        rw [List.length_take]; exact min_le_right _ _
    _ ≤ (dedupFirst ((r.achivements.getD []).map jsTrim)).length :=
        List.length_filter_le _ _
    _ ≤ ((r.achivements.getD []).map jsTrim).length := dedupFirst_length_le _
    _ = (r.achivements.getD []).length := List.length_map _ _

theorem space_length : (" " : String).length = 1 := rfl

theorem expEntryText_length (e : Exp) :
    (e.role ++ " " ++ e.company ++ " " ++ e.duration ++ " " ++ joinSp e.description).length =
      e.role.length + 1 + e.company.length + 1 + e.duration.length + 1 +
        joinLen (e.description.map String.length) := by
  simp only [String.length_append, joinSp_length, space_length]

theorem eduEntryText_length (e : Edu) :
    (e.degree ++ " " ++ e.school ++ " " ++ e.year).length =
      e.degree.length + 1 + e.school.length + 1 + e.year.length := by
  simp only [String.length_append, space_length]

theorem volEntryText_length (v : Vol) :
    (v.role ++ " " ++ v.org ++ " " ++ joinSp v.description).length =
      v.role.length + 1 + v.org.length + 1 + joinLen (v.description.map String.length) := by
  simp only [String.length_append, joinSp_length, space_length]

theorem exp_lengths (l : List Exp) :
    ((l.map (fun e => e.role ++ " " ++ e.company ++ " " ++ e.duration ++ " " ++
        joinSp e.description)).map String.length) =
      l.map (fun e => e.role.length + 1 + e.company.length + 1 + e.duration.length + 1 +
        joinLen (e.description.map String.length)) := by
  rw [List.map_map]
  exact List.map_congr_left (fun e _ => expEntryText_length e)

theorem edu_lengths (l : List Edu) :
    ((l.map (fun e => e.degree ++ " " ++ e.school ++ " " ++ e.year)).map String.length) =
      l.map (fun e => e.degree.length + 1 + e.school.length + 1 + e.year.length) := by
  rw [List.map_map]
  exact List.map_congr_left (fun e _ => eduEntryText_length e)

theorem cert_lengths (l : List Cert) :
    ((l.map (fun c => c.name ++ c.year.getD "")).map String.length) =
      l.map (fun c => c.name.length + (c.year.getD "").length) := by
  rw [List.map_map]
  exact List.map_congr_left (fun c _ => String.length_append _ _)

theorem vol_lengths (l : List Vol) :
    ((l.map (fun v => v.role ++ " " ++ v.org ++ " " ++ joinSp v.description)).map
        String.length) =
      l.map (fun v => v.role.length + 1 + v.org.length + 1 +
        joinLen (v.description.map String.length)) := by
  rw [List.map_map]
  exact List.map_congr_left (fun v _ => volEntryText_length v)

/-! ## Claims -/

/-- C1: the output `_layout.compactMode` is true iff the density measure
`totalChars` is strictly greater than 2200; an input whose `totalChars`
is exactly 2200 yields `compactMode = false`. -/
theorem c1_compactMode_boundary (r : ResumeData) :
    ((preprocessResume r)._layout.compactMode = true ↔ 2200 < totalChars r) ∧
    (totalChars r = 2200 → (preprocessResume r)._layout.compactMode = false) := by
  constructor
  · show compactMode r = true ↔ 2200 < totalChars r
    simp [compactMode, MEDIUM_CHARS]
  · intro h
    show compactMode r = false
    simp [compactMode, MEDIUM_CHARS, h]

theorem c1_compactMode_boundary_witness :
    totalChars c1Input = 2200 ∧ (preprocessResume c1Input)._layout.compactMode = false :=
  ⟨by decide, (c1_compactMode_boundary c1Input).2 (by decide)⟩

/-- C3: the processed experience list has length at most
`_layout.maxExperienceItems` (6 normal / 3 compact), the processed
education list at most `_layout.maxEducationItems` (6 normal / 2
compact), and every remaining experience entry's description has length
at most `_layout.maxBulletsPerExp` (4 normal / 2 compact). -/
theorem c3_item_caps (r : ResumeData) :
    ((preprocessResume r).experience.length ≤ (preprocessResume r)._layout.maxExperienceItems ∧
      (preprocessResume r)._layout.maxExperienceItems = (if compactMode r then 3 else 6)) ∧
    ((preprocessResume r).education.length ≤ (preprocessResume r)._layout.maxEducationItems ∧
      (preprocessResume r)._layout.maxEducationItems = (if compactMode r then 2 else 6)) ∧
    ((preprocessResume r)._layout.maxBulletsPerExp = (if compactMode r then 2 else 4) ∧
      ∀ e ∈ (preprocessResume r).experience,
        e.description.length ≤ (preprocessResume r)._layout.maxBulletsPerExp) := by
  refine ⟨⟨processedExperience_length_le r, rfl⟩,
    ⟨processedEducation_length_le r, rfl⟩, rfl, ?_⟩
  intro e he
  exact processedExperience_desc_le r e he

theorem c3_item_caps_witness :
    c3Entry ∈ (preprocessResume c3Input).experience ∧
    c3Entry.description.length ≤ (preprocessResume c3Input)._layout.maxBulletsPerExp :=
  ⟨by decide, (c3_item_caps c3Input).2.2.2 c3Entry (by decide)⟩

/-- C5 (refuting theorem): the claim says a non-list `description` is
coerced to an empty list without raising; in the code, the density
estimator's `joinExpText` coerces only falsy values (`|| []`) and calls
`.join(" ")` on whatever remains, so a truthy non-array `description`
(here the string "oops") raises a TypeError.  The later bullet
normalization (`descCoerce`, from the `Array.isArray` check at the
bullet-trimming step) does coerce exactly as the claim describes,
which is the intended behavior the density estimator fails to follow. -/
theorem c5_description_string_throws :
    joinExpTextDyn [{ role := "r", company := "c", duration := "d",
                      description := JsVal.str "oops" }] =
      Except.error "TypeError: join is not a function" ∧
    descCoerce (JsVal.str "oops") = [] ∧
    jsJoinSp (jsOrEmptyArr JsVal.nullv) = Except.ok "" :=
  ⟨rfl, rfl, rfl⟩

/-- C2: every section font size lies in its documented window
(sectionTitle ∈ [10,18], body ∈ [9,14], sidebarTitle ∈ [9,14],
sidebarBody ∈ [8,12], duration ∈ [8,12], nameFontSize ∈ [16,48]), and
each is its base value (14, 12, 12, 11, 10) times `globalScale`
(sidebarTitle and sidebarBody additionally times the 0.88 penalty when
`totalChars > 4200`), rounded, then clamped. -/
theorem c2_font_windows_and_formulas (r : ResumeData) :
    (10 ≤ (preprocessResume r)._layout.sectionFontSizes.sectionTitle ∧
      (preprocessResume r)._layout.sectionFontSizes.sectionTitle ≤ 18) ∧
    (9 ≤ (preprocessResume r)._layout.sectionFontSizes.body ∧
      (preprocessResume r)._layout.sectionFontSizes.body ≤ 14) ∧
    (9 ≤ (preprocessResume r)._layout.sectionFontSizes.sidebarTitle ∧
      (preprocessResume r)._layout.sectionFontSizes.sidebarTitle ≤ 14) ∧
    (8 ≤ (preprocessResume r)._layout.sectionFontSizes.sidebarBody ∧
      (preprocessResume r)._layout.sectionFontSizes.sidebarBody ≤ 12) ∧
    (8 ≤ (preprocessResume r)._layout.sectionFontSizes.duration ∧
      (preprocessResume r)._layout.sectionFontSizes.duration ≤ 12) ∧
    (16 ≤ (preprocessResume r)._layout.nameFontSize ∧
      (preprocessResume r)._layout.nameFontSize ≤ 48) ∧
    (preprocessResume r)._layout.sectionFontSizes.sectionTitle =
      clamp (jsRound (14 * globalScale (totalChars r))) 10 18 ∧
    (preprocessResume r)._layout.sectionFontSizes.body =
      clamp (jsRound (12 * globalScale (totalChars r))) 9 14 ∧
    (preprocessResume r)._layout.sectionFontSizes.sidebarTitle =
      clamp (jsRound (12 * globalScale (totalChars r) * sidebarPenalty (totalChars r))) 9 14 ∧
    (preprocessResume r)._layout.sectionFontSizes.sidebarBody =
      clamp (jsRound (11 * globalScale (totalChars r) * sidebarPenalty (totalChars r))) 8 12 ∧
    (preprocessResume r)._layout.sectionFontSizes.duration =
      clamp (jsRound (10 * globalScale (totalChars r))) 8 12 ∧
    sidebarPenalty (totalChars r) =
      (if 4200 < totalChars r then (0.88 : ℝ) else 1) :=
  ⟨clamp_bounds _ 10 18 (by norm_num),
   clamp_bounds _ 9 14 (by norm_num),
   clamp_bounds _ 9 14 (by norm_num),
   clamp_bounds _ 8 12 (by norm_num),
   clamp_bounds _ 8 12 (by norm_num),
   clamp_bounds _ 16 48 (by norm_num),
   rfl, rfl, rfl, rfl, rfl, rfl⟩

/-- C4: when the experience list overflows, the excess tail entries (in
original order) are removed and condensed into single strings
(`title • bullet1 • bullet2 ...` with bullets capped at
`maxBulletsPerExp`, education overflow into `degree — school year`);
the pending overflow strings are appended after the existing (trimmed)
achievements, duplicates are removed keeping first occurrences, and the
union is capped to `achCap` (6 compact / 12 normal), so the final
achievements list has length at most `achCap` and no duplicates. -/
theorem c4_overflow_redistribution (r : ResumeData)
    (h : maxExperienceItems r < r.experience.length) :
    (preprocessResume r).experience =
      (r.experience.take (maxExperienceItems r)).map
        (procExpEntry (maxBulletsPerExp r) (truncateCharPerLine r)) ∧
    extraAchievements r =
      ((r.experience.drop (maxExperienceItems r)).map
        (condenseExp (maxBulletsPerExp r))).filter (fun s => s ≠ "") ++
      (if maxEducationItems r < r.education.length then
        ((r.education.drop (maxEducationItems r)).map condenseEdu).filter (fun s => s ≠ "")
      else []) ∧
    (∀ e : Exp, condenseExp (maxBulletsPerExp r) e =
      joinWith " • " ((jsTrim (e.role ++ " — " ++ e.company) ::
        (e.description.take (maxBulletsPerExp r)).map jsTrim).filter (fun s => s ≠ ""))) ∧
    (preprocessResume r).achivements =
      some (((dedupFirst (((r.achivements.getD []).map jsTrim) ++ extraAchievements r)).filter
        (fun s => s ≠ "")).take (achCap r)) ∧
    achCap r = (if compactMode r then 6 else 12) ∧
    ((preprocessResume r).achivements.getD []).length ≤ achCap r ∧
    ((preprocessResume r).achivements.getD []).Nodup := by
  refine ⟨?_, ?_, fun e => rfl, rfl, rfl,
    processedAchievements_length_le r, processedAchievements_nodup r⟩
  · show processedExperience r = _
    unfold processedExperience
    rw [if_pos h]
  · unfold extraAchievements
    rw [if_pos h]

theorem c4_overflow_redistribution_witness :
    maxExperienceItems c4Input < c4Input.experience.length ∧
    ((preprocessResume c4Input).achivements.getD []).length ≤ achCap c4Input ∧
    ((preprocessResume c4Input).achivements.getD []).Nodup :=
  ⟨by decide, (c4_overflow_redistribution c4Input (by decide)).2.2.2.2.2.1,
    (c4_overflow_redistribution c4Input (by decide)).2.2.2.2.2.2⟩

/-- C6 counterexample: the claim says bullets not exceeding
`truncateCharPerLine` are left unchanged, but every kept bullet is
trimmed before the length test: the in-limit bullet `" a"` comes out
as `"a"`. -/
theorem c6_counterexample :
    (" a" : String).length ≤ (preprocessResume c6Input)._layout.truncateCharPerLine ∧
    c6Input.experience.map Exp.description = [[" a"]] ∧
    (preprocessResume c6Input).experience.map Exp.description = [["a"]] ∧
    (" a" : String) ≠ "a" :=
  ⟨by decide, by decide, by decide, by decide⟩

/-- C6 (amended): each kept bullet is first trimmed; a trimmed bullet
strictly longer than `truncateCharPerLine` is replaced by the first
`truncateCharPerLine - 1` characters of the trimmed bullet, with
surrounding whitespace trimmed again, plus an ellipsis; trimmed bullets
within the limit are kept at their trimmed value.  In particular a
300-character whitespace-free bullet becomes 219 characters plus an
ellipsis under the normal-mode limit 220. -/
theorem c6_truncation_amended (r : ResumeData) :
    ((preprocessResume r).experience.map Exp.description =
      ((if maxExperienceItems r < r.experience.length then
          r.experience.take (maxExperienceItems r)
        else r.experience).map
        (fun e => (e.description.take (maxBulletsPerExp r)).map (fun d =>
          if truncateCharPerLine r < (jsTrim d).length then
            jsTrim (jsTake (jsTrim d) (truncateCharPerLine r - 1)) ++ "…"
          else jsTrim d)))) ∧
    truncLine 220 (jsTrim (String.mk (List.replicate 300 'a'))) =
      String.mk (List.replicate 219 'a') ++ "…" := by
  constructor
  · show (processedExperience r).map Exp.description = _
    unfold processedExperience
    rw [List.map_map]
    apply List.map_congr_left
    intro e _
    show ((e.description.take (maxBulletsPerExp r)).map jsTrim).map
      (truncLine (truncateCharPerLine r)) = _
    rw [List.map_map]
    apply List.map_congr_left
    intro d _
    rfl
  · decide

/-- C7 counterexample: on `c7Input` the first pass is normal mode
(density 2196 ≤ 2200) and truncates the long bullet to 220 characters;
condensing the two overflow entries into achievements makes the
second-pass density 2204 > 2200 (refuting "second pass totalChars ≤
first pass totalChars"), so the second pass is compact and re-truncates
the already-truncated bullet down to 120 characters (refuting "does not
re-truncate already-truncated bullets below their first-pass length"). -/
theorem c7_counterexample :
    totalChars c7Input < totalChars (preprocessResume c7Input).toResumeData ∧
    compactMode c7Input = false ∧
    compactMode (preprocessResume c7Input).toResumeData = true ∧
    (preprocessResume c7Input).experience.map (fun e => e.description.map String.length) =
      [[220], [2, 2], [2, 2], [2, 2], [2, 2], [2, 2]] ∧
    (preprocessResume ((preprocessResume c7Input).toResumeData)).experience.map
      (fun e => e.description.map String.length) = [[120], [2, 2], [2, 2]] :=
  ⟨by decide, by decide, by decide, by decide, by decide⟩

/-- C7 (amended): running `preprocessResume` a second time on its own
output (with `_layout` dropped and recomputed fresh) never yields more
achievements than the first pass's cap `achCap`; however the
second-pass `totalChars` can exceed the first-pass value and bullets
can be re-truncated below their first-pass length when the second pass
flips into compact mode (see the counterexample). -/
theorem c7_second_pass_achievements_bound (r : ResumeData) :
    ((preprocessResume ((preprocessResume r).toResumeData)).achivements.getD []).length ≤
      achCap r := by
  have hach : ((preprocessResume ((preprocessResume r).toResumeData)).achivements.getD []) =
      processedAchievements ((preprocessResume r).toResumeData) := rfl
  rw [hach]
  by_cases hc : compactMode r = true
  · have hexp : ((preprocessResume r).toResumeData).experience = processedExperience r := rfl
    have hedu : ((preprocessResume r).toResumeData).education = processedEducation r := rfl
    have hel : (processedExperience r).length ≤ maxExperienceItems r :=
      processedExperience_length_le r
    have hml : maxExperienceItems r = 3 := by simp [maxExperienceItems, hc]
    have hm2 : 3 ≤ maxExperienceItems ((preprocessResume r).toResumeData) := by
      unfold maxExperienceItems; split <;> omega
    have hexplen : ((preprocessResume r).toResumeData).experience.length ≤
        maxExperienceItems ((preprocessResume r).toResumeData) := by
      rw [hexp]; omega
    have hedl : (processedEducation r).length ≤ maxEducationItems r :=
      processedEducation_length_le r
    have hmel : maxEducationItems r = 2 := by simp [maxEducationItems, hc]
    have hme2 : 2 ≤ maxEducationItems ((preprocessResume r).toResumeData) := by
      unfold maxEducationItems; split <;> omega
    have hedulen : ((preprocessResume r).toResumeData).education.length ≤
        maxEducationItems ((preprocessResume r).toResumeData) := by
      rw [hedu]; omega
    have hnil := extraAchievements_eq_nil _ hexplen hedulen
    have hle := processedAchievements_le_existing _ hnil
    have hfst : (((preprocessResume r).toResumeData).achivements.getD []) =
        processedAchievements r := rfl
    rw [hfst] at hle
    have hlen1 := processedAchievements_length_le r
    omega
  · have h12 : achCap r = 12 := by simp [achCap, hc]
    have hle := processedAchievements_length_le ((preprocessResume r).toResumeData)
    have hcap2 : achCap ((preprocessResume r).toResumeData) ≤ 12 := by
      unfold achCap; split <;> omega
    omega

/-- C8: the density measure `totalChars` is the (non-negative, `Nat`)
sum of the character lengths of name, title, summary, each experience
entry's role, company, duration and joined description, each education
entry's degree, school and year, joined skills, softSkills,
achievements and languages, each certification's name and year
(concatenated), and each volunteer entry's role, org and joined
description — with a single separating space between joined list
elements (accounted by `joinLen`); missing optional fields contribute
as empty. -/
theorem c8_totalChars_formula (r : ResumeData) :
    totalChars r =
      r.name.length + (r.title.getD "").length + r.summary.length +
      joinLen (r.experience.map (fun e =>
        e.role.length + 1 + e.company.length + 1 + e.duration.length + 1 +
          joinLen (e.description.map String.length))) +
      joinLen (r.education.map (fun e =>
        e.degree.length + 1 + e.school.length + 1 + e.year.length)) +
      joinLen ((r.skills.getD []).map String.length) +
      joinLen ((r.softSkills.getD []).map String.length) +
      joinLen ((r.achivements.getD []).map String.length) +
      joinLen ((r.languages.getD []).map String.length) +
      joinLen ((r.certifications.getD []).map (fun c =>
        c.name.length + (c.year.getD "").length)) +
      joinLen ((r.volunteer.getD []).map (fun v =>
        v.role.length + 1 + v.org.length + 1 +
          joinLen (v.description.map String.length))) := by
  unfold totalChars joinExpText joinEduText joinSimple certText volunteerText
  rw [joinSp_length, joinSp_length, joinSp_length, joinSp_length, joinSp_length,
    joinSp_length, joinSp_length, joinSp_length,
    exp_lengths, edu_lengths, cert_lengths, vol_lengths]

/-- C10: the attached `_layout.sidebarWidthPx` is the constant 180, and
`_layout.sectionFontSizes.name` always equals `_layout.nameFontSize`. -/
theorem c10_sidebar_and_name_font (r : ResumeData) :
    (preprocessResume r)._layout.sidebarWidthPx = 180 ∧
    (preprocessResume r)._layout.sectionFontSizes.name = (preprocessResume r)._layout.nameFontSize :=
  ⟨rfl, rfl⟩

end Resumator
